import Mathlib

/-!
Shallow embedding of `services/diagnostic/service.go` from the kapacitor
diagnostics facade. Handlers wrap a zap logger, modelled as its ordered
list of permanently bound fields; every event method returns the ordered
list of records the call emits to the backend.
-/

namespace Diagnostic

/-- Value of a structured logging field, mirroring the zap field
constructors this file uses (`zap.String`, `zap.Int`, `zap.Time`,
`zap.Duration`, `zap.Error`). -/
inductive FieldValue where
  | str : String → FieldValue
  | int : Int → FieldValue
  | time : Int → FieldValue
  | duration : Int → FieldValue
  | err : String → FieldValue
deriving DecidableEq, Repr

/-- A structured logging field: key paired with a typed value
(`zapcore.Field`). -/
structure Field where
  key : String
  value : FieldValue
deriving DecidableEq, Repr

/-- The zero value of a Go `zapcore.Field` (empty key, empty string),
used for slots of a preallocated slice not yet written. -/
def zeroField : Field := ⟨"", .str ""⟩

/-- A Go `error` value, observed only through its description
(`err.Error()`). -/
structure GoError where
  msg : String
deriving DecidableEq, Repr

/-- `keyvalue.T`: a caller-supplied (key, value) context pair. -/
structure KeyValue where
  Key : String
  Value : String
deriving DecidableEq, Repr

/-- `zap.String(k, v)`. -/
def zapString (k v : String) : Field := ⟨k, .str v⟩

/-- `zap.Error(err)`: a field with fixed key "error" carrying the error
description. -/
def zapError (e : GoError) : Field := ⟨"error", .err e.msg⟩

/-- `zap.Int(k, n)`. -/
def zapInt (k : String) (n : Int) : Field := ⟨k, .int n⟩

/-- `zap.Time(k, t)`. -/
def zapTime (k : String) (t : Int) : Field := ⟨k, .time t⟩

/-- `zap.Duration(k, d)`. -/
def zapDuration (k : String) (d : Int) : Field := ⟨k, .duration d⟩

/-- The field a context pair is rendered to: `zap.String(kv.Key, kv.Value)`. -/
def kvField (kv : KeyValue) : Field := zapString kv.Key kv.Value

/-- Record severity levels of the backend. -/
inductive Severity where
  | debug | info | warn | error
deriving DecidableEq, Repr

/-- One record emitted to the backend: severity, message, and the ordered
field list (the logger's bound context followed by the call-site fields). -/
structure Record where
  severity : Severity
  message : String
  fields : List Field
deriving DecidableEq, Repr

/-- A `*zap.Logger`: modelled by its ordered list of permanently bound
fields. -/
structure Logger where
  fields : List Field
deriving DecidableEq, Repr

/-- `Logger.With(fields...)`: derives a child logger with the given fields
permanently appended; the receiver is unchanged. -/
def Logger.With (l : Logger) (fs : List Field) : Logger :=
  ⟨l.fields ++ fs⟩

/-- Emission of one record: bound context fields come first, then the
call-site fields. -/
def Logger.emit (l : Logger) (sev : Severity) (msg : String) (fs : List Field) : Record :=
  ⟨sev, msg, l.fields ++ fs⟩

/-- `l.Debug(msg, fields...)`. -/
def Logger.Debug (l : Logger) (msg : String) (fs : List Field) : Record :=
  l.emit .debug msg fs

/-- `l.Info(msg, fields...)`. -/
def Logger.Info (l : Logger) (msg : String) (fs : List Field) : Record :=
  l.emit .info msg fs

/-- `l.Warn(msg, fields...)`. -/
def Logger.Warn (l : Logger) (msg : String) (fs : List Field) : Record :=
  l.emit .warn msg fs

/-- `l.Error(msg, fields...)`. -/
def Logger.Error (l : Logger) (msg : String) (fs : List Field) : Record :=
  l.emit .error msg fs

/-- The field-accumulating loop shared by every `WithContext` body:
`fields := []zapcore.Field{}; for _, kv := range ctx { fields = append(fields, zap.String(kv.Key, kv.Value)) }`. -/
def contextFields (ctx : List KeyValue) : List Field :=
  ctx.foldl (fun fs kv => fs ++ [zapString kv.Key kv.Value]) []

/-- The general allocation path of the shared `Error` dispatch:
`fields := make([]zapcore.Field, len(ctx)+1); fields[0] = zap.Error(err);
for i := 1; i < len(fields); i++ { fields[i] = zap.String(ctx[i-1].Key, ctx[i-1].Value) }`. -/
def mkGeneralErrorFields (e : GoError) (ctx : List KeyValue) : List Field :=
  (List.range (ctx.length + 1)).map fun i =>
    if i = 0 then zapError e
    else
      match ctx.get? (i - 1) with
      | some kv => zapString kv.Key kv.Value
      | none => zeroField

/-- Modelled from the spec (refinement target, not source code): the single
general path that builds the record fields as the error field followed by
each (key, value) pair of the context, in order, and emits one
error-severity record. -/
def specGeneralErrorPath (l : Logger) (msg : String) (e : GoError) (ctx : List KeyValue) :
    List Record :=
  [l.Error msg (zapError e :: ctx.map kvField)]

-- Handler types: each wraps a `*zap.Logger`.

/-- `AlertServiceHandler`. -/
structure AlertServiceHandler where
  l : Logger
deriving DecidableEq, Repr

/-- `KapacitorHandler`. -/
structure KapacitorHandler where
  l : Logger
deriving DecidableEq, Repr

/-- `AlertaHandler`. -/
structure AlertaHandler where
  l : Logger
deriving DecidableEq, Repr

/-- `HipChatHandler`. -/
structure HipChatHandler where
  l : Logger
deriving DecidableEq, Repr

/-- `HTTPDHandler`. -/
structure HTTPDHandler where
  l : Logger
deriving DecidableEq, Repr

/-- `ReportingHandler`. -/
structure ReportingHandler where
  l : Logger
deriving DecidableEq, Repr

/-- `PagerDutyHandler`. -/
structure PagerDutyHandler where
  l : Logger
deriving DecidableEq, Repr

/-- `SlackHandler`. -/
structure SlackHandler where
  l : Logger
deriving DecidableEq, Repr

/-- `StorageHandler`. -/
structure StorageHandler where
  l : Logger
deriving DecidableEq, Repr

/-- `TaskStoreHandler`. -/
structure TaskStoreHandler where
  l : Logger
deriving DecidableEq, Repr

/-- `VictorOpsHandler`. -/
structure VictorOpsHandler where
  l : Logger
deriving DecidableEq, Repr

/-- `UDFServiceHandler`. -/
structure UDFServiceHandler where
  l : Logger
deriving DecidableEq, Repr

/-- `AlertHandler` (constructed by the factory's `NewAlertHandler`). -/
structure AlertHandler where
  l : Logger
deriving DecidableEq, Repr

-- AlertServiceHandler methods

/-- `AlertServiceHandler.WithHandlerContext(ctx ...keyvalue.T)`. -/
def AlertServiceHandler.WithHandlerContext (h : AlertServiceHandler) (ctx : List KeyValue) :
    AlertServiceHandler :=
  ⟨h.l.With (contextFields ctx)⟩

/-- `AlertServiceHandler.MigratingHandlerSpecs()`. -/
def AlertServiceHandler.MigratingHandlerSpecs (h : AlertServiceHandler) : List Record :=
  [h.l.Debug "migrating old v1.2 handler specs" []]

/-- `AlertServiceHandler.Error(msg, err, ctx ...keyvalue.T)`: the arity
dispatch, special-casing 0, 1 and 2 context pairs, with a general
allocation path otherwise. -/
def AlertServiceHandler.Error (h : AlertServiceHandler) (msg : String) (e : GoError)
    (ctx : List KeyValue) : List Record :=
  match ctx with
  | [] => [h.l.Error msg [zapError e]]
  | [el] => [h.l.Error msg [zapError e, zapString el.Key el.Value]]
  | [x, y] =>
    [h.l.Error msg [zapError e, zapString x.Key x.Value, zapString y.Key y.Value]]
  | _ => [h.l.Error msg (mkGeneralErrorFields e ctx)]

-- KapacitorHandler methods

/-- `KapacitorHandler.Error(msg, err, ctx ...keyvalue.T)`: identical arity
dispatch. -/
def KapacitorHandler.Error (h : KapacitorHandler) (msg : String) (e : GoError)
    (ctx : List KeyValue) : List Record :=
  match ctx with
  | [] => [h.l.Error msg [zapError e]]
  | [el] => [h.l.Error msg [zapError e, zapString el.Key el.Value]]
  | [x, y] =>
    [h.l.Error msg [zapError e, zapString x.Key x.Value, zapString y.Key y.Value]]
  | _ => [h.l.Error msg (mkGeneralErrorFields e ctx)]

/-- `KapacitorHandler.LogData(level, prefix, data)`: a switch on the level
whose "info" case emits, followed by an unconditional emission. -/
def KapacitorHandler.LogData (h : KapacitorHandler) (level pre data : String) : List Record :=
  (if level = "info" then
    [h.l.Info "listing data" [zapString "prefix" pre, zapString "data" data]]
  else
    []) ++
  [h.l.Info "listing data" [zapString "prefix" pre, zapString "data" data]]

-- AlertaHandler methods

/-- `AlertaHandler.WithContext(ctx ...keyvalue.T)`. -/
def AlertaHandler.WithContext (h : AlertaHandler) (ctx : List KeyValue) : AlertaHandler :=
  ⟨h.l.With (contextFields ctx)⟩

/-- `AlertaHandler.Error(msg, err)`. -/
def AlertaHandler.Error (h : AlertaHandler) (msg : String) (e : GoError) : List Record :=
  [h.l.Error msg [zapError e]]

-- HTTPDHandler methods

/-- A Go `*log.Logger` handle; the facade only ever produces the nil
pointer, modelled as `Option.none`. -/
structure LogLogger where
  handle : Unit
deriving DecidableEq, Repr

/-- `HTTPDHandler.NewHTTPServerErrorLogger()`: `return nil`. -/
def HTTPDHandler.NewHTTPServerErrorLogger (_ : HTTPDHandler) : Option LogLogger :=
  none

/-- `HTTPDHandler.HTTP(host, username, start, method, uri, proto, status, referer, userAgent, reqID, duration)`. -/
def HTTPDHandler.HTTP (h : HTTPDHandler) (host username : String) (start : Int)
    (method uri proto : String) (status : Int) (referer userAgent reqID : String)
    (duration : Int) : List Record :=
  [h.l.Info "???"
    [zapString "host" host,
     zapString "username" username,
     zapTime "start" start,
     zapString "method" method,
     zapString "uri" uri,
     zapString "protocol" proto,
     zapInt "status" status,
     zapString "referer" referer,
     zapString "user-agent" userAgent,
     zapString "request-id" reqID,
     zapDuration "duration" duration]]

-- PagerDutyHandler methods

/-- `PagerDutyHandler.WithContext(ctx ...keyvalue.T)`. -/
def PagerDutyHandler.WithContext (h : PagerDutyHandler) (ctx : List KeyValue) :
    PagerDutyHandler :=
  ⟨h.l.With (contextFields ctx)⟩

/-- `PagerDutyHandler.Error(msg, err)`. -/
def PagerDutyHandler.Error (h : PagerDutyHandler) (msg : String) (e : GoError) : List Record :=
  [h.l.Error msg [zapError e]]

-- SlackHandler methods

/-- `SlackHandler.WithContext(ctx ...keyvalue.T)`. -/
def SlackHandler.WithContext (h : SlackHandler) (ctx : List KeyValue) : SlackHandler :=
  ⟨h.l.With (contextFields ctx)⟩

/-- `SlackHandler.Error(msg, err)`. -/
def SlackHandler.Error (h : SlackHandler) (msg : String) (e : GoError) : List Record :=
  [h.l.Error msg [zapError e]]

-- TaskStoreHandler methods

/-- `TaskStoreHandler.Error(msg, err, ctx ...keyvalue.T)`: identical arity
dispatch. -/
def TaskStoreHandler.Error (h : TaskStoreHandler) (msg : String) (e : GoError)
    (ctx : List KeyValue) : List Record :=
  match ctx with
  | [] => [h.l.Error msg [zapError e]]
  | [el] => [h.l.Error msg [zapError e, zapString el.Key el.Value]]
  | [x, y] =>
    [h.l.Error msg [zapError e, zapString x.Key x.Value, zapString y.Key y.Value]]
  | _ => [h.l.Error msg (mkGeneralErrorFields e ctx)]

/-- `TaskStoreHandler.AlreadyMigrated(entity, id)`:
`h.l.Debug("entity has already been migrated skipping", zap.String(entity, id))`. -/
def TaskStoreHandler.AlreadyMigrated (h : TaskStoreHandler) (entity ident : String) :
    List Record :=
  [h.l.Debug "entity has already been migrated skipping" [zapString entity ident]]

/-- `TaskStoreHandler.Migrated(entity, id)`:
`h.l.Debug("entity was migrated to new storage service", zap.String(entity, id))`. -/
def TaskStoreHandler.Migrated (h : TaskStoreHandler) (entity ident : String) : List Record :=
  [h.l.Debug "entity was migrated to new storage service" [zapString entity ident]]

-- VictorOpsHandler methods

/-- `VictorOpsHandler.WithContext(ctx ...keyvalue.T)`. -/
def VictorOpsHandler.WithContext (h : VictorOpsHandler) (ctx : List KeyValue) :
    VictorOpsHandler :=
  ⟨h.l.With (contextFields ctx)⟩

/-- `VictorOpsHandler.Error(msg, err)`. -/
def VictorOpsHandler.Error (h : VictorOpsHandler) (msg : String) (e : GoError) : List Record :=
  [h.l.Error msg [zapError e]]

-- Diagnostics factory

/-- The `service` struct: owns the root logger. -/
structure service where
  logger : Logger
deriving DecidableEq, Repr

/-- `zap.NewExample()`: a root logger with no bound fields. -/
def zapNewExample : Logger := ⟨[]⟩

/-- `NewService()`. -/
def NewService : service := ⟨zapNewExample⟩

/-- `service.NewVictorOpsHandler()`. -/
def service.NewVictorOpsHandler (s : service) : VictorOpsHandler :=
  ⟨s.logger.With [zapString "service" "victorops"]⟩

/-- `service.NewSlackHandler()`. -/
def service.NewSlackHandler (s : service) : SlackHandler :=
  ⟨s.logger.With [zapString "service" "slack"]⟩

/-- `service.NewTaskStoreHandler()`. -/
def service.NewTaskStoreHandler (s : service) : TaskStoreHandler :=
  ⟨s.logger.With [zapString "service" "task_store"]⟩

/-- `service.NewReportingHandler()`. -/
def service.NewReportingHandler (s : service) : ReportingHandler :=
  ⟨s.logger.With [zapString "service" "reporting"]⟩

/-- `service.NewStorageHandler()`. -/
def service.NewStorageHandler (s : service) : StorageHandler :=
  ⟨s.logger.With [zapString "service" "storage"]⟩

/-- `service.NewHTTPDHandler()`. -/
def service.NewHTTPDHandler (s : service) : HTTPDHandler :=
  ⟨s.logger.With [zapString "service" "http"]⟩

/-- `service.NewAlertaHandler()`. -/
def service.NewAlertaHandler (s : service) : AlertaHandler :=
  ⟨s.logger.With [zapString "service" "alerta"]⟩

/-- `service.NewKapacitorHandler()`. -/
def service.NewKapacitorHandler (s : service) : KapacitorHandler :=
  ⟨s.logger.With [zapString "service" "kapacitor"]⟩

/-- `service.NewAlertHandler()`. -/
def service.NewAlertHandler (s : service) : AlertHandler :=
  ⟨s.logger.With [zapString "service" "alert"]⟩

/-- `service.NewHipChatHandler()`. -/
def service.NewHipChatHandler (s : service) : HipChatHandler :=
  ⟨s.logger.With [zapString "service" "hipchat"]⟩

/-- `service.NewUDFServiceHandler()`. -/
def service.NewUDFServiceHandler (s : service) : UDFServiceHandler :=
  ⟨s.logger.With [zapString "service" "udf"]⟩

end Diagnostic
namespace Diagnostic

-- Helper lemmas shared by the claim theorems.

theorem contextFields_foldl (ctx : List KeyValue) (acc : List Field) :
    ctx.foldl (fun fs kv => fs ++ [zapString kv.Key kv.Value]) acc = acc ++ ctx.map kvField := by
  induction ctx generalizing acc with
  | nil => simp
  | cons a t ih => simp [List.foldl_cons, ih, kvField]

theorem contextFields_eq_map (ctx : List KeyValue) : contextFields ctx = ctx.map kvField := by
  simpa using contextFields_foldl ctx []

theorem range_map_getElem (t : List KeyValue) :
    (List.range t.length).map (fun i =>
      match t.get? i with
      | some kv => zapString kv.Key kv.Value
      | none => zeroField) = t.map kvField := by
  induction t with
  | nil => rfl
  | cons a t ih =>
    rw [List.length_cons, List.range_succ_eq_map, List.map_cons, List.map_map]
    refine congrArg₂ List.cons rfl ?_
    rw [← ih]
    apply List.map_congr_left
    intro i _
    simp [Function.comp, kvField]

theorem mkGeneralErrorFields_eq (e : GoError) (ctx : List KeyValue) :
    mkGeneralErrorFields e ctx = zapError e :: ctx.map kvField := by
  unfold mkGeneralErrorFields
  rw [List.range_succ_eq_map, List.map_cons, List.map_map]
  refine congrArg₂ List.cons (by simp) ?_
  rw [← range_map_getElem ctx]
  apply List.map_congr_left
  intro i _
  simp [Function.comp, Nat.succ_sub_one]

theorem kvField_ne_zapError (kv : KeyValue) (e : GoError) : kvField kv ≠ zapError e := by
  simp [kvField, zapString, zapError]

end Diagnostic
namespace Diagnostic

/-- C1: for every handler exposing the shared Error(msg, err, ctx...) dispatch
(KapacitorHandler, TaskStoreHandler, AlertServiceHandler), for every message,
error value and context list of any length, the emitted records equal those of
the single spec-side general path that builds the error field followed by each
(key, value) pair in order: the 0/1/2-arity fast paths are observationally
equivalent to the general allocation path. -/
theorem errorDispatch_equiv_generalPath (h₁ : KapacitorHandler) (h₂ : TaskStoreHandler)
    (h₃ : AlertServiceHandler) (msg : String) (e : GoError) (ctx : List KeyValue) :
    h₁.Error msg e ctx = specGeneralErrorPath h₁.l msg e ctx ∧
    h₂.Error msg e ctx = specGeneralErrorPath h₂.l msg e ctx ∧
    h₃.Error msg e ctx = specGeneralErrorPath h₃.l msg e ctx := by
  rcases ctx with _ | ⟨a, _ | ⟨b, _ | ⟨c, rest⟩⟩⟩ <;>
    refine ⟨?_, ?_, ?_⟩ <;>
      simp [KapacitorHandler.Error, TaskStoreHandler.Error, AlertServiceHandler.Error,
        specGeneralErrorPath, mkGeneralErrorFields_eq, kvField]

/-- C3 (code evidence): `KapacitorHandler.LogData` emits two identical records
when the level argument is "info" (the switch case emits and the unconditional
emission after the switch emits again) and one record otherwise, refuting
"exactly one record emitted for every level argument". -/
theorem logData_info_emits_two_records :
    (KapacitorHandler.LogData ⟨⟨[]⟩⟩ "info" "p" "d").length = 2 ∧
    (KapacitorHandler.LogData ⟨⟨[]⟩⟩ "debug" "p" "d").length = 1 ∧
    KapacitorHandler.LogData ⟨⟨[]⟩⟩ "info" "p" "d" =
      [⟨.info, "listing data", [zapString "prefix" "p", zapString "data" "d"]⟩,
       ⟨.info, "listing data", [zapString "prefix" "p", zapString "data" "d"]⟩] := by
  refine ⟨?_, ?_, ?_⟩ <;> rfl

/-- C4 (counterexample): `TaskStoreHandler.AlreadyMigrated("task", "t1")` emits
one debug record whose field list is the single field `zap.String(entity, id)`
— the entity kind is the field's key and the identifier its value — so the
record does not carry the entity kind and the identifier as two distinct
fields. -/
theorem alreadyMigrated_single_field_cex :
    TaskStoreHandler.AlreadyMigrated ⟨⟨[]⟩⟩ "task" "t1" =
      [⟨.debug, "entity has already been migrated skipping", [⟨"task", .str "t1"⟩]⟩] ∧
    ((TaskStoreHandler.AlreadyMigrated ⟨⟨[]⟩⟩ "task" "t1").headD
        ⟨.debug, "", []⟩).fields.length = 1 := by
  refine ⟨?_, ?_⟩ <;> rfl

/-- C4 (amended): `AlreadyMigrated(entity, id)` and `Migrated(entity, id)` each
emit exactly one debug-severity record carrying one additional field whose key
is the entity kind and whose value is the identifier. -/
theorem migration_events_one_record_one_field (h : TaskStoreHandler) (entity ident : String) :
    h.AlreadyMigrated entity ident =
      [⟨.debug, "entity has already been migrated skipping",
        h.l.fields ++ [zapString entity ident]⟩] ∧
    h.Migrated entity ident =
      [⟨.debug, "entity was migrated to new storage service",
        h.l.fields ++ [zapString entity ident]⟩] :=
  ⟨rfl, rfl⟩

/-- C5: `HTTPDHandler.HTTP` emits, for every input, exactly one info-severity
record carrying the eleven request attributes as fields in the fixed order
host, username, start, method, uri, protocol, status, referer, user-agent,
request-id, duration; the referer field is attached even when its value is the
empty string (the membership conjunct holds for every referer value, the empty
string included). -/
theorem httpdHTTP_one_info_record_all_fields (h : HTTPDHandler) (host username : String)
    (start : Int) (method uri proto : String) (status : Int)
    (referer userAgent reqID : String) (duration : Int) :
    h.HTTP host username start method uri proto status referer userAgent reqID duration =
      [⟨.info, "???",
        h.l.fields ++
          [zapString "host" host, zapString "username" username, zapTime "start" start,
           zapString "method" method, zapString "uri" uri, zapString "protocol" proto,
           zapInt "status" status, zapString "referer" referer,
           zapString "user-agent" userAgent, zapString "request-id" reqID,
           zapDuration "duration" duration]⟩] ∧
    zapString "referer" referer ∈
      ((h.HTTP host username start method uri proto status referer userAgent reqID
          duration).headD ⟨.debug, "", []⟩).fields := by
  refine ⟨rfl, ?_⟩
  simp [HTTPDHandler.HTTP, Logger.Info, Logger.emit]

/-- C7: for every error value, calling Error("write failed", err,
[("attempt","3")]) on KapacitorHandler or TaskStoreHandler emits exactly one
error-severity record with message "write failed" whose call fields are the
error description followed by attempt="3". -/
theorem error_write_failed_attempt3 (h₁ : KapacitorHandler) (h₂ : TaskStoreHandler)
    (e : GoError) :
    h₁.Error "write failed" e [⟨"attempt", "3"⟩] =
      [⟨.error, "write failed", h₁.l.fields ++ [zapError e, zapString "attempt" "3"]⟩] ∧
    h₂.Error "write failed" e [⟨"attempt", "3"⟩] =
      [⟨.error, "write failed", h₂.l.fields ++ [zapError e, zapString "attempt" "3"]⟩] :=
  ⟨rfl, rfl⟩

/-- C8: every factory accessor returns a freshly constructed handler of the
corresponding type whose logger is the root logger bound with exactly one
additional field service=<fixed lowercase subsystem name>; construction is a
total function with no failure path and no other effect. -/
theorem factory_accessors_bind_service_field (s : service) :
    (s.NewVictorOpsHandler).l.fields = s.logger.fields ++ [zapString "service" "victorops"] ∧
    (s.NewSlackHandler).l.fields = s.logger.fields ++ [zapString "service" "slack"] ∧
    (s.NewTaskStoreHandler).l.fields = s.logger.fields ++ [zapString "service" "task_store"] ∧
    (s.NewReportingHandler).l.fields = s.logger.fields ++ [zapString "service" "reporting"] ∧
    (s.NewStorageHandler).l.fields = s.logger.fields ++ [zapString "service" "storage"] ∧
    (s.NewHTTPDHandler).l.fields = s.logger.fields ++ [zapString "service" "http"] ∧
    (s.NewAlertaHandler).l.fields = s.logger.fields ++ [zapString "service" "alerta"] ∧
    (s.NewKapacitorHandler).l.fields = s.logger.fields ++ [zapString "service" "kapacitor"] ∧
    (s.NewAlertHandler).l.fields = s.logger.fields ++ [zapString "service" "alert"] ∧
    (s.NewHipChatHandler).l.fields = s.logger.fields ++ [zapString "service" "hipchat"] ∧
    (s.NewUDFServiceHandler).l.fields = s.logger.fields ++ [zapString "service" "udf"] :=
  ⟨rfl, rfl, rfl, rfl, rfl, rfl, rfl, rfl, rfl, rfl, rfl⟩

/-- C9: `HTTPDHandler.NewHTTPServerErrorLogger` returns the nil pointer for
every receiver: callers receive no usable logger. -/
theorem newHTTPServerErrorLogger_returns_nil (h : HTTPDHandler) :
    h.NewHTTPServerErrorLogger = none :=
  rfl

/-- C10: deriving with an empty pair list is an identity up to observation:
the derived handler's bound fields equal the receiver's, and any subsequent
event call emits exactly the records the receiver would emit (shown for
AlertaHandler and VictorOpsHandler). -/
theorem withContext_empty_is_identity (h : AlertaHandler) (v : VictorOpsHandler)
    (msg : String) (e : GoError) :
    (h.WithContext []).l.fields = h.l.fields ∧
    (h.WithContext []).Error msg e = h.Error msg e ∧
    (v.WithContext []).l.fields = v.l.fields ∧
    (v.WithContext []).Error msg e = v.Error msg e := by
  refine ⟨?_, ?_, ?_, ?_⟩ <;>
    simp [AlertaHandler.WithContext, VictorOpsHandler.WithContext, AlertaHandler.Error,
      VictorOpsHandler.Error, Logger.With, Logger.Error, Logger.emit, contextFields]

end Diagnostic
namespace Diagnostic

/-- C2: for any handler with a context-binding method (shown for
AlertaHandler.WithContext and AlertServiceHandler.WithHandlerContext) and all
field lists F1, F2, deriving twice and then calling an event method emits a
record whose bound fields are the original fields followed by F1 followed by
F2, in that order, with nothing lost, reordered or deduplicated; and the
original handler, used afterward, still emits records containing neither F1
nor F2 (given that their rendered fields were not already bound on it). -/
theorem withContext_composes_in_order (h : AlertaHandler) (g : AlertServiceHandler)
    (f1 f2 : List KeyValue) (msg : String) (e : GoError)
    (hh : ∀ kv ∈ f1 ++ f2, kvField kv ∉ h.l.fields)
    (hg : ∀ kv ∈ f1 ++ f2, kvField kv ∉ g.l.fields) :
    ((h.WithContext f1).WithContext f2).Error msg e =
      [⟨.error, msg, h.l.fields ++ f1.map kvField ++ f2.map kvField ++ [zapError e]⟩] ∧
    ((g.WithHandlerContext f1).WithHandlerContext f2).MigratingHandlerSpecs =
      [⟨.debug, "migrating old v1.2 handler specs",
        g.l.fields ++ f1.map kvField ++ f2.map kvField⟩] ∧
    h.Error msg e = [⟨.error, msg, h.l.fields ++ [zapError e]⟩] ∧
    (∀ kv ∈ f1 ++ f2, ∀ r ∈ h.Error msg e, kvField kv ∉ r.fields) ∧
    g.MigratingHandlerSpecs = [⟨.debug, "migrating old v1.2 handler specs", g.l.fields⟩] ∧
    (∀ kv ∈ f1 ++ f2, ∀ r ∈ g.MigratingHandlerSpecs, kvField kv ∉ r.fields) := by
  refine ⟨?_, ?_, rfl, ?_, ?_, ?_⟩
  · simp [AlertaHandler.WithContext, AlertaHandler.Error, Logger.With, Logger.Error,
      Logger.emit, contextFields_eq_map]
  · simp [AlertServiceHandler.WithHandlerContext, AlertServiceHandler.MigratingHandlerSpecs,
      Logger.With, Logger.Debug, Logger.emit, contextFields_eq_map]
  · intro kv hkv r hr hmem
    simp only [AlertaHandler.Error, Logger.Error, Logger.emit, List.mem_singleton] at hr
    subst hr
    change kvField kv ∈ h.l.fields ++ [zapError e] at hmem
    rcases List.mem_append.mp hmem with hm | hm
    · exact hh kv hkv hm
    · exact kvField_ne_zapError kv e (List.mem_singleton.mp hm)
  · simp [AlertServiceHandler.MigratingHandlerSpecs, Logger.Debug, Logger.emit]
  · intro kv hkv r hr hmem
    simp only [AlertServiceHandler.MigratingHandlerSpecs, Logger.Debug, Logger.emit,
      List.mem_singleton] at hr
    subst hr
    change kvField kv ∈ g.l.fields ++ [] at hmem
    rw [List.append_nil] at hmem
    exact hg kv hkv hmem

/-- C2 witness: the composition theorem applied at concrete handlers with
empty bound context, F1 = [("a","1")], F2 = [("b","2")]. -/
theorem withContext_composes_in_order_witness :
    (∀ kv ∈ ([⟨"a", "1"⟩] ++ [⟨"b", "2"⟩] : List KeyValue),
        kvField kv ∉ (Logger.mk []).fields) ∧
    (∀ kv ∈ ([⟨"a", "1"⟩] ++ [⟨"b", "2"⟩] : List KeyValue),
        kvField kv ∉ (Logger.mk []).fields) ∧
    ((((AlertaHandler.mk ⟨[]⟩).WithContext [⟨"a", "1"⟩]).WithContext
        [⟨"b", "2"⟩]).Error "m" ⟨"boom"⟩ =
      [⟨.error, "m",
        [zapString "a" "1", zapString "b" "2", zapError ⟨"boom"⟩]⟩] ∧
    (((AlertServiceHandler.mk ⟨[]⟩).WithHandlerContext
        [⟨"a", "1"⟩]).WithHandlerContext [⟨"b", "2"⟩]).MigratingHandlerSpecs =
      [⟨.debug, "migrating old v1.2 handler specs",
        [zapString "a" "1", zapString "b" "2"]⟩] ∧
    (AlertaHandler.mk ⟨[]⟩).Error "m" ⟨"boom"⟩ =
      [⟨.error, "m", [zapError ⟨"boom"⟩]⟩] ∧
    (∀ kv ∈ ([⟨"a", "1"⟩] ++ [⟨"b", "2"⟩] : List KeyValue),
      ∀ r ∈ (AlertaHandler.mk ⟨[]⟩).Error "m" ⟨"boom"⟩, kvField kv ∉ r.fields) ∧
    (AlertServiceHandler.mk ⟨[]⟩).MigratingHandlerSpecs =
      [⟨.debug, "migrating old v1.2 handler specs", []⟩] ∧
    (∀ kv ∈ ([⟨"a", "1"⟩] ++ [⟨"b", "2"⟩] : List KeyValue),
      ∀ r ∈ (AlertServiceHandler.mk ⟨[]⟩).MigratingHandlerSpecs,
        kvField kv ∉ r.fields)) :=
  ⟨by decide, by decide,
    withContext_composes_in_order ⟨⟨[]⟩⟩ ⟨⟨[]⟩⟩ [⟨"a", "1"⟩] [⟨"b", "2"⟩] "m" ⟨"boom"⟩
      (by decide) (by decide)⟩

/-- C6: deriving a child handler never mutates the parent: after
A := H.WithContext(F) and B := H.WithContext(G) (shown for SlackHandler and
PagerDutyHandler), the two derivations carry exactly the appended fields,
while an event emitted on H itself carries H's original bound fields only and
contains no field of F or G (given those fields were not already bound on
H). -/
theorem derive_does_not_mutate_parent (h : SlackHandler) (p : PagerDutyHandler)
    (f g : List KeyValue) (msg : String) (e : GoError)
    (hh : ∀ kv ∈ f ++ g, kvField kv ∉ h.l.fields)
    (hp : ∀ kv ∈ f ++ g, kvField kv ∉ p.l.fields) :
    (h.WithContext f).l.fields = h.l.fields ++ f.map kvField ∧
    (h.WithContext g).l.fields = h.l.fields ++ g.map kvField ∧
    h.Error msg e = [⟨.error, msg, h.l.fields ++ [zapError e]⟩] ∧
    (∀ kv ∈ f ++ g, ∀ r ∈ h.Error msg e, kvField kv ∉ r.fields) ∧
    (p.WithContext f).l.fields = p.l.fields ++ f.map kvField ∧
    (p.WithContext g).l.fields = p.l.fields ++ g.map kvField ∧
    p.Error msg e = [⟨.error, msg, p.l.fields ++ [zapError e]⟩] ∧
    (∀ kv ∈ f ++ g, ∀ r ∈ p.Error msg e, kvField kv ∉ r.fields) := by
  refine ⟨?_, ?_, rfl, ?_, ?_, ?_, rfl, ?_⟩
  · simp [SlackHandler.WithContext, Logger.With, contextFields_eq_map]
  · simp [SlackHandler.WithContext, Logger.With, contextFields_eq_map]
  · intro kv hkv r hr hmem
    simp only [SlackHandler.Error, Logger.Error, Logger.emit, List.mem_singleton] at hr
    subst hr
    change kvField kv ∈ h.l.fields ++ [zapError e] at hmem
    rcases List.mem_append.mp hmem with hm | hm
    · exact hh kv hkv hm
    · exact kvField_ne_zapError kv e (List.mem_singleton.mp hm)
  · simp [PagerDutyHandler.WithContext, Logger.With, contextFields_eq_map]
  · simp [PagerDutyHandler.WithContext, Logger.With, contextFields_eq_map]
  · intro kv hkv r hr hmem
    simp only [PagerDutyHandler.Error, Logger.Error, Logger.emit, List.mem_singleton] at hr
    subst hr
    change kvField kv ∈ p.l.fields ++ [zapError e] at hmem
    rcases List.mem_append.mp hmem with hm | hm
    · exact hp kv hkv hm
    · exact kvField_ne_zapError kv e (List.mem_singleton.mp hm)

/-- C6 witness: the no-mutation theorem applied at concrete handlers with
empty bound context, F = [("x","1")], G = [("y","2")]. -/
theorem derive_does_not_mutate_parent_witness :
    (∀ kv ∈ ([⟨"x", "1"⟩] ++ [⟨"y", "2"⟩] : List KeyValue),
        kvField kv ∉ (Logger.mk []).fields) ∧
    (∀ kv ∈ ([⟨"x", "1"⟩] ++ [⟨"y", "2"⟩] : List KeyValue),
        kvField kv ∉ (Logger.mk []).fields) ∧
    (((SlackHandler.mk ⟨[]⟩).WithContext [⟨"x", "1"⟩]).l.fields =
        [zapString "x" "1"] ∧
    ((SlackHandler.mk ⟨[]⟩).WithContext [⟨"y", "2"⟩]).l.fields =
        [zapString "y" "2"] ∧
    (SlackHandler.mk ⟨[]⟩).Error "m" ⟨"oops"⟩ =
        [⟨.error, "m", [zapError ⟨"oops"⟩]⟩] ∧
    (∀ kv ∈ ([⟨"x", "1"⟩] ++ [⟨"y", "2"⟩] : List KeyValue),
      ∀ r ∈ (SlackHandler.mk ⟨[]⟩).Error "m" ⟨"oops"⟩, kvField kv ∉ r.fields) ∧
    ((PagerDutyHandler.mk ⟨[]⟩).WithContext [⟨"x", "1"⟩]).l.fields =
        [zapString "x" "1"] ∧
    ((PagerDutyHandler.mk ⟨[]⟩).WithContext [⟨"y", "2"⟩]).l.fields =
        [zapString "y" "2"] ∧
    (PagerDutyHandler.mk ⟨[]⟩).Error "m" ⟨"oops"⟩ =
        [⟨.error, "m", [zapError ⟨"oops"⟩]⟩] ∧
    (∀ kv ∈ ([⟨"x", "1"⟩] ++ [⟨"y", "2"⟩] : List KeyValue),
      ∀ r ∈ (PagerDutyHandler.mk ⟨[]⟩).Error "m" ⟨"oops"⟩,
        kvField kv ∉ r.fields)) :=
  ⟨by decide, by decide,
    derive_does_not_mutate_parent ⟨⟨[]⟩⟩ ⟨⟨[]⟩⟩ [⟨"x", "1"⟩] [⟨"y", "2"⟩] "m" ⟨"oops"⟩
      (by decide) (by decide)⟩

end Diagnostic
